import Mathlib

/-!
Shallow embedding of the ATM simulator (`src/app.py`) in Lean 4.

Modelling conventions, chosen to mirror the Python source:

* Time is measured in whole minutes (`Nat`); `timedelta(minutes=30)` is `+ 30`
  and `now.date()` is `dateOf now = now / 1440` (1440 minutes per day).
* Monetary amounts (`float` in the source, decimal per the data model) are `ℚ`.
* Python dicts (`accounts`, `failed_attempts`, `locked_accounts`,
  `session_tokens`) are association lists `List (String × α)` with
  first-match lookup/update, which agrees with dict semantics on the
  duplicate-free lists dicts produce.
* The opaque hashing collaborator (`generate_password_hash` /
  `check_password_hash` from werkzeug) is modelled by an injective tag, which
  realises exactly the contract `verify (hash p) q = (p = q)` the code relies on.
* Random identifier generation (`generate_transaction_id`,
  `generate_account_number`, session tokens) is injected as explicit string
  parameters, mirroring the spec's injected-generator capability.
* Each Flask endpoint becomes a function `State → args → Resp × State`; the
  returned `State` is the content of the data file after the call (the code
  loads the file, mutates in memory and calls `save_data` only on the success
  paths, so every early-return path leaves the file, i.e. the returned state,
  untouched).  An uncaught `KeyError` (HTTP 500, nothing saved) is the
  response `Resp.crash` with the state unchanged.
* `logout` is special: the source calls `save_data(data)` where `data` is the
  *request body* (`request.get_json()`), not the loaded snapshot `db_data`,
  so the data file afterwards holds the request body.  `FileContent` captures
  the two possible file contents.
-/

namespace ATM

/-- `now.date()` comparison: whole days since epoch, time in minutes. -/
def dateOf (t : Nat) : Nat := t / 1440

/-- First-match lookup in an association list (Python `d[k]` / `d.get(k)`). -/
def lookupD {α : Type} : List (String × α) → String → Option α
  | [], _ => none
  | kv :: rest, k => if kv.1 = k then some kv.2 else lookupD rest k

/-- Python `k in d`. -/
def containsD {α : Type} (m : List (String × α)) (k : String) : Bool :=
  (lookupD m k).isSome

/-- Python `d[k] = v`: replace the (unique) binding, or append a new one. -/
def insertD {α : Type} : List (String × α) → String → α → List (String × α)
  | [], k, v => [(k, v)]
  | kv :: rest, k, v => if kv.1 = k then (k, v) :: rest else kv :: insertD rest k v

/-- In-place mutation of the dict entry at `k` (Python `d[k]` is a live
reference that the endpoints mutate field by field). -/
def updateD {α : Type} : List (String × α) → String → (α → α) → List (String × α)
  | [], _, _ => []
  | kv :: rest, k, f => if kv.1 = k then (kv.1, f kv.2) :: rest else kv :: updateD rest k f

/-- Python `del d[k]` (removes the unique binding). -/
def eraseD {α : Type} : List (String × α) → String → List (String × α)
  | [], _ => []
  | kv :: rest, k => if kv.1 = k then eraseD rest k else kv :: eraseD rest k

/-- Opaque PIN-hashing collaborator, modelled as an injective tag. -/
def generate_password_hash (pin : String) : String := "H" ++ pin

/-- Constant-time verify collaborator: `check(hash p, q)` iff `p = q`. -/
def check_password_hash (h pin : String) : Bool := h == generate_password_hash pin

structure Prefs where
  fast_cash_amount : ℚ
  receipt_enabled : Bool
  language : String
deriving DecidableEq

structure Account where
  pin_hash : String
  balance : ℚ
  name : String
  account_type : String
  daily_limit : ℚ
  daily_withdrawn : ℚ
  last_reset : Nat
  created_at : Nat
  preferences : Prefs
deriving DecidableEq

structure Txn where
  id : String
  kind : String
  amount : ℚ
  timestamp : Nat
  balance_after : ℚ
  account_number : Option String
  from_account : Option String
  to_account : Option String
  note : Option String
deriving DecidableEq

structure Session where
  account_number : String
  created_at : Nat
  expires_at : Nat
deriving DecidableEq

/-- The persisted snapshot (`load_data` / `save_data`). -/
structure State where
  accounts : List (String × Account)
  transactions : List Txn
  failed_attempts : List (String × Nat)
  locked_accounts : List (String × Nat)
  session_tokens : List (String × Session)
deriving DecidableEq

/-- Error kinds, read off the endpoints' failure messages and status codes. -/
inductive Err where
  | validation
  | sessionExpired
  | locked (minutesRemaining : Nat)
  | invalidPin (attemptsRemaining : Nat)
  | currentPinIncorrect
  | notFound
  | limitExceeded
  | insufficientFunds
deriving DecidableEq

/-- Endpoint responses (success payloads as returned by the JSON bodies). -/
inductive Resp where
  | registerOk (number name : String) (balance : ℚ)
  | loginOk (token number name account_type : String) (balance : ℚ)
  | logoutOk
  | balanceOk (balance daily_limit daily_remaining : ℚ) (account_type : String)
  | opOk (new_balance : ℚ) (txn_id : String) (timestamp : Nat)
  | txnsOk (txns : List Txn)
  | pinChanged
  | fastCashOk (amount new_balance : ℚ) (txn_id : String)
  | prefsOk (p : Prefs)
  | accountInfoOk (number name account_type : String) (balance daily_limit : ℚ)
      (created_at : Nat)
  | err (e : Err)
  | crash
deriving DecidableEq

/-- What `save_data` last wrote to the data file: a full snapshot, or (in the
`logout` endpoint, which passes the request payload) the raw request body. -/
inductive FileContent where
  | state (s : State)
  | requestBody (token : Option String)
deriving DecidableEq

/-- `check_account_lock` (app.py lines 39-51): returns the locked flag, the
remaining minutes, and the possibly-updated persisted state (it saves only
when it clears an elapsed lock). -/
def check_account_lock (s : State) (account_number : String) (now : Nat) :
    Bool × Nat × State :=
  match lookupD s.locked_accounts account_number with
  | some lock_time =>
      if now < lock_time + 30 then
        (true, lock_time + 30 - now, s)
      else
        (false, 0,
          { s with locked_accounts := eraseD s.locked_accounts account_number,
                   failed_attempts := eraseD s.failed_attempts account_number })
  | none => (false, 0, s)

/-- The per-account daily-reset rule applied by `reset_daily_limits`. -/
def reset_account (now : Nat) (a : Account) : Account :=
  if dateOf now > dateOf a.last_reset then
    { a with daily_withdrawn := 0, last_reset := now }
  else a

/-- `reset_daily_limits` (app.py lines 53-61): applies the daily-reset rule to
every account.  In the source it is invoked only from `login`. -/
def reset_daily_limits (s : State) (now : Nat) : State :=
  { s with accounts := s.accounts.map (fun kv => (kv.1, reset_account now kv.2)) }

/-- Whether a PIN passes the shape check `len(pin) == 4 and pin.isdigit()`
(the character list is traversed directly, matching `str.isdigit`). -/
def pinShapeOk (pin : String) : Bool :=
  pin.length == 4 && pin.data.all Char.isDigit

/-- `/api/register` (app.py lines 77-134).  `account_number` and `txn_id`
stand for the injected random generators; `generate_account_number`
guarantees `account_number` is fresh. -/
def register (s : State) (name pin : String) (initial_deposit : ℚ)
    (account_number txn_id : String) (now : Nat) : Resp × State :=
  if name.length < 2 then (.err .validation, s)
  else if !pinShapeOk pin then (.err .validation, s)
  else if initial_deposit < 0 then (.err .validation, s)
  else
    let account : Account :=
      { pin_hash := generate_password_hash pin
        balance := initial_deposit
        name := name
        account_type := "Savings"
        daily_limit := 5000
        daily_withdrawn := 0
        last_reset := now
        created_at := now
        preferences := { fast_cash_amount := 100, receipt_enabled := true, language := "en" } }
    let txns :=
      if 0 < initial_deposit then
        s.transactions ++
          [{ id := txn_id, kind := "deposit", amount := initial_deposit,
             timestamp := now, balance_after := initial_deposit,
             account_number := some account_number, from_account := none,
             to_account := none, note := some "Initial deposit" }]
      else s.transactions
    (.registerOk account_number name initial_deposit,
      { s with accounts := insertD s.accounts account_number account,
               transactions := txns })

/-- `/api/login` (app.py lines 136-204).  `session_token` is the injected
token generator; on success the endpoint saves and then calls
`reset_daily_limits`, which loads and saves again. -/
def login (s : State) (account_number pin : String) (now : Nat)
    (session_token : String) : Resp × State :=
  if account_number = "" ∨ pin = "" then (.err .validation, s)
  else
    let lockRes := check_account_lock s account_number now
    let s1 := lockRes.2.2
    if lockRes.1 then (.err (.locked lockRes.2.1), s1)
    else
      match lookupD s1.accounts account_number with
      | none => (.err .notFound, s1)
      | some account =>
          if check_password_hash account.pin_hash pin then
            let newSession : Session :=
              { account_number := account_number, created_at := now,
                expires_at := now + 30 }
            let s2 :=
              { s1 with
                failed_attempts := eraseD s1.failed_attempts account_number,
                session_tokens := insertD s1.session_tokens session_token newSession }
            (.loginOk session_token account_number account.name account.account_type
               account.balance,
             reset_daily_limits s2 now)
          else
            let newCount := (lookupD s1.failed_attempts account_number).getD 0 + 1
            let s2 :=
              { s1 with failed_attempts := insertD s1.failed_attempts account_number newCount }
            if 3 ≤ newCount then
              (.err (.locked 30),
               { s2 with locked_accounts := insertD s2.locked_accounts account_number now })
            else
              (.err (.invalidPin (3 - newCount)), s2)

/-- `/api/logout` (app.py lines 206-216).  When the token is known the source
executes `del db_data['session_tokens'][token]` and then `save_data(data)` —
`data` being the request body, not `db_data` — so the file ends up holding
the request payload; when the token is unknown nothing is saved. -/
def logout (s : State) (token : String) : Resp × FileContent :=
  if containsD s.session_tokens token then (.logoutOk, .requestBody (some token))
  else (.logoutOk, .state s)

/-- `/api/balance` (app.py lines 218-244): the only endpoint that compares
`datetime.now()` with `expires_at` (strictly) before serving. -/
def get_balance (s : State) (token : String) (now : Nat) : Resp × State :=
  match lookupD s.session_tokens token with
  | none => (.err .sessionExpired, s)
  | some sess =>
      if sess.expires_at < now then (.err .sessionExpired, s)
      else
        match lookupD s.accounts sess.account_number with
        | none => (.crash, s)
        | some account =>
            let toks := updateD s.session_tokens token
              (fun sd => { sd with expires_at := now + 30 })
            (.balanceOk account.balance account.daily_limit
               (account.daily_limit - account.daily_withdrawn) account.account_type,
             { s with session_tokens := toks })

/-- `/api/withdraw` (app.py lines 246-300). -/
def withdraw (s : State) (token : String) (amount : ℚ) (note : String)
    (now : Nat) (txn_id : String) : Resp × State :=
  if amount ≤ 0 then (.err .validation, s)
  else if 10000 < amount then (.err .validation, s)
  else
    match lookupD s.session_tokens token with
    | none => (.err .sessionExpired, s)
    | some sess =>
        match lookupD s.accounts sess.account_number with
        | none => (.crash, s)
        | some account =>
            if account.daily_limit < account.daily_withdrawn + amount then
              (.err .limitExceeded, s)
            else if account.balance < amount then
              (.err .insufficientFunds, s)
            else
              let new_balance := account.balance - amount
              let txn : Txn :=
                { id := txn_id, kind := "withdrawal", amount := amount,
                  timestamp := now, balance_after := new_balance,
                  account_number := some sess.account_number, from_account := none,
                  to_account := none, note := some note }
              let accounts1 := updateD s.accounts sess.account_number
                (fun a => { a with balance := a.balance - amount,
                                   daily_withdrawn := a.daily_withdrawn + amount })
              let toks := updateD s.session_tokens token
                (fun sd => { sd with expires_at := now + 30 })
              (.opOk new_balance txn_id now,
               { s with accounts := accounts1,
                        transactions := s.transactions ++ [txn],
                        session_tokens := toks })

/-- `/api/deposit` (app.py lines 302-345). -/
def deposit (s : State) (token : String) (amount : ℚ) (note : String)
    (now : Nat) (txn_id : String) : Resp × State :=
  if amount ≤ 0 then (.err .validation, s)
  else if 50000 < amount then (.err .validation, s)
  else
    match lookupD s.session_tokens token with
    | none => (.err .sessionExpired, s)
    | some sess =>
        match lookupD s.accounts sess.account_number with
        | none => (.crash, s)
        | some account =>
            let new_balance := account.balance + amount
            let txn : Txn :=
              { id := txn_id, kind := "deposit", amount := amount,
                timestamp := now, balance_after := new_balance,
                account_number := some sess.account_number, from_account := none,
                to_account := none, note := some note }
            let accounts1 := updateD s.accounts sess.account_number
              (fun a => { a with balance := a.balance + amount })
            let toks := updateD s.session_tokens token
              (fun sd => { sd with expires_at := now + 30 })
            (.opOk new_balance txn_id now,
             { s with accounts := accounts1,
                      transactions := s.transactions ++ [txn],
                      session_tokens := toks })

/-- `/api/transfer` (app.py lines 347-403). -/
def transfer (s : State) (token to_account : String) (amount : ℚ) (note : String)
    (now : Nat) (txn_id : String) : Resp × State :=
  if amount ≤ 0 then (.err .validation, s)
  else if 10000 < amount then (.err .validation, s)
  else
    match lookupD s.session_tokens token with
    | none => (.err .sessionExpired, s)
    | some sess =>
        if sess.account_number = to_account then (.err .validation, s)
        else
          match lookupD s.accounts to_account with
          | none => (.err .notFound, s)
          | some _ =>
              match lookupD s.accounts sess.account_number with
              | none => (.crash, s)
              | some sender =>
                  if sender.balance < amount then (.err .insufficientFunds, s)
                  else
                    let new_balance := sender.balance - amount
                    let accounts1 := updateD s.accounts sess.account_number
                      (fun a => { a with balance := a.balance - amount })
                    let accounts2 := updateD accounts1 to_account
                      (fun a => { a with balance := a.balance + amount })
                    let txn : Txn :=
                      { id := txn_id, kind := "transfer", amount := amount,
                        timestamp := now, balance_after := new_balance,
                        account_number := none,
                        from_account := some sess.account_number,
                        to_account := some to_account, note := some note }
                    let toks := updateD s.session_tokens token
                      (fun sd => { sd with expires_at := now + 30 })
                    (.opOk new_balance txn_id now,
                     { s with accounts := accounts2,
                              transactions := s.transactions ++ [txn],
                              session_tokens := toks })

/-- `/api/transactions` (app.py lines 405-434): stable sort by timestamp,
most recent first, truncated to `limit`. -/
def get_transactions (s : State) (token : String) (limit : Nat) (now : Nat) :
    Resp × State :=
  match lookupD s.session_tokens token with
  | none => (.err .sessionExpired, s)
  | some sess =>
      let acct := sess.account_number
      let filtered := s.transactions.filter (fun t =>
        t.account_number == some acct || t.from_account == some acct ||
          t.to_account == some acct)
      let sorted := filtered.mergeSort (fun a b => decide (b.timestamp ≤ a.timestamp))
      let toks := updateD s.session_tokens token
        (fun sd => { sd with expires_at := now + 30 })
      (.txnsOk (sorted.take limit), { s with session_tokens := toks })

/-- `/api/change-pin` (app.py lines 436-461).  Note: no session renewal. -/
def change_pin (s : State) (token current_pin new_pin : String) : Resp × State :=
  if !pinShapeOk new_pin then (.err .validation, s)
  else
    match lookupD s.session_tokens token with
    | none => (.err .sessionExpired, s)
    | some sess =>
        match lookupD s.accounts sess.account_number with
        | none => (.crash, s)
        | some account =>
            if check_password_hash account.pin_hash current_pin then
              let accounts1 := updateD s.accounts sess.account_number
                (fun a => { a with pin_hash := generate_password_hash new_pin })
              (.pinChanged, { s with accounts := accounts1 })
            else (.err .currentPinIncorrect, s)

/-- `/api/fast-cash` (app.py lines 463-506): withdraws the configured
`fast_cash_amount` with the insufficient-funds check first, then the daily
limit; no sign or per-transaction cap check. -/
def fast_cash (s : State) (token : String) (now : Nat) (txn_id : String) :
    Resp × State :=
  match lookupD s.session_tokens token with
  | none => (.err .sessionExpired, s)
  | some sess =>
      match lookupD s.accounts sess.account_number with
      | none => (.crash, s)
      | some account =>
          let amount := account.preferences.fast_cash_amount
          if account.balance < amount then (.err .insufficientFunds, s)
          else if account.daily_limit < account.daily_withdrawn + amount then
            (.err .limitExceeded, s)
          else
            let new_balance := account.balance - amount
            let txn : Txn :=
              { id := txn_id, kind := "fast_cash", amount := amount,
                timestamp := now, balance_after := new_balance,
                account_number := some sess.account_number, from_account := none,
                to_account := none, note := none }
            let accounts1 := updateD s.accounts sess.account_number
              (fun a => { a with balance := a.balance - amount,
                                 daily_withdrawn := a.daily_withdrawn + amount })
            let toks := updateD s.session_tokens token
              (fun sd => { sd with expires_at := now + 30 })
            (.fastCashOk amount new_balance txn_id,
             { s with accounts := accounts1,
                      transactions := s.transactions ++ [txn],
                      session_tokens := toks })

/-- A partial preferences payload (`dict.update` over the three known keys). -/
structure PrefsPatch where
  fast_cash_amount : Option ℚ
  receipt_enabled : Option Bool
  language : Option String
deriving DecidableEq

/-- Python `account['preferences'].update(preferences)`. -/
def apply_patch (p : Prefs) (patch : PrefsPatch) : Prefs :=
  { fast_cash_amount := patch.fast_cash_amount.getD p.fast_cash_amount
    receipt_enabled := patch.receipt_enabled.getD p.receipt_enabled
    language := patch.language.getD p.language }

/-- `/api/update-preferences` (app.py lines 508-526).  Any supplied value is
merged verbatim; no validation, no session renewal. -/
def update_preferences (s : State) (token : String) (patch : PrefsPatch) :
    Resp × State :=
  match lookupD s.session_tokens token with
  | none => (.err .sessionExpired, s)
  | some sess =>
      match lookupD s.accounts sess.account_number with
      | none => (.crash, s)
      | some account =>
          let accounts1 := updateD s.accounts sess.account_number
            (fun a => { a with preferences := apply_patch a.preferences patch })
          (.prefsOk (apply_patch account.preferences patch),
           { s with accounts := accounts1 })

/-- `/api/account-info` (app.py lines 528-552): read-only, never saves,
no session renewal. -/
def get_account_info (s : State) (token : String) : Resp × State :=
  match lookupD s.session_tokens token with
  | none => (.err .sessionExpired, s)
  | some sess =>
      match lookupD s.accounts sess.account_number with
      | none => (.crash, s)
      | some account =>
          (.accountInfoOk sess.account_number account.name account.account_type
             account.balance account.daily_limit account.created_at, s)

/-! ### Association-list lemmas -/

theorem lookupD_insertD_self {α : Type} (m : List (String × α)) (k : String) (v : α) :
    lookupD (insertD m k v) k = some v := by
  induction m with
  | nil => simp [insertD, lookupD]
  | cons kv rest ih =>
      by_cases h : kv.1 = k
      · simp [insertD, h, lookupD]
      · simp [insertD, h, lookupD, ih]

theorem lookupD_insertD_ne {α : Type} (m : List (String × α)) {k k' : String}
    (v : α) (h : k' ≠ k) : lookupD (insertD m k v) k' = lookupD m k' := by
  induction m with
  | nil => simp [insertD, lookupD, Ne.symm h]
  | cons kv rest ih =>
      by_cases hk : kv.1 = k
      · simp [insertD, hk, lookupD, Ne.symm h]
      · simp [insertD, hk, lookupD, ih]

theorem lookupD_eraseD_self {α : Type} (m : List (String × α)) (k : String) :
    lookupD (eraseD m k) k = none := by
  induction m with
  | nil => simp [eraseD, lookupD]
  | cons kv rest ih =>
      by_cases h : kv.1 = k
      · simp [eraseD, h, ih]
      · simp [eraseD, h, lookupD, ih]

theorem lookupD_eraseD_ne {α : Type} (m : List (String × α)) {k k' : String}
    (h : k' ≠ k) : lookupD (eraseD m k) k' = lookupD m k' := by
  induction m with
  | nil => simp [eraseD, lookupD]
  | cons kv rest ih =>
      by_cases hk : kv.1 = k
      · simp [eraseD, hk, lookupD, Ne.symm h, ih]
      · simp [eraseD, hk, lookupD, ih]

theorem lookupD_updateD_self {α : Type} (m : List (String × α)) {k : String}
    {v : α} (f : α → α) (h : lookupD m k = some v) :
    lookupD (updateD m k f) k = some (f v) := by
  induction m with
  | nil => simp [lookupD] at h
  | cons kv rest ih =>
      by_cases hk : kv.1 = k
      · simp only [lookupD, if_pos hk] at h
        cases h
        simp [updateD, hk, lookupD]
      · simp only [lookupD, if_neg hk] at h
        simp [updateD, hk, lookupD, ih h]

theorem lookupD_updateD_ne {α : Type} (m : List (String × α)) {k k' : String}
    (f : α → α) (h : k' ≠ k) : lookupD (updateD m k f) k' = lookupD m k' := by
  induction m with
  | nil => simp [updateD, lookupD]
  | cons kv rest ih =>
      by_cases hk : kv.1 = k
      · simp [updateD, hk, lookupD, Ne.symm h]
      · simp [updateD, hk, lookupD, ih]

theorem lookupD_mem {α : Type} {m : List (String × α)} {k : String} {v : α}
    (h : lookupD m k = some v) : (k, v) ∈ m := by
  induction m with
  | nil => simp [lookupD] at h
  | cons kv rest ih =>
      by_cases hk : kv.1 = k
      · simp only [lookupD, if_pos hk] at h
        cases h
        cases kv with
        | mk a b =>
            cases hk
            exact List.mem_cons_self _ _
      · simp only [lookupD, if_neg hk] at h
        exact List.mem_cons_of_mem _ (ih h)

theorem mem_insertD {α : Type} {m : List (String × α)} {k : String} {v : α}
    {kv' : String × α} (h : kv' ∈ insertD m k v) : kv' ∈ m ∨ kv' = (k, v) := by
  induction m with
  | nil => simpa [insertD] using h
  | cons kv rest ih =>
      by_cases hk : kv.1 = k
      · simp only [insertD, if_pos hk, List.mem_cons] at h
        rcases h with h | h
        · exact Or.inr h
        · exact Or.inl (List.mem_cons_of_mem _ h)
      · simp only [insertD, if_neg hk, List.mem_cons] at h
        rcases h with h | h
        · exact Or.inl (by simp [h])
        · rcases ih h with h' | h'
          · exact Or.inl (List.mem_cons_of_mem _ h')
          · exact Or.inr h'

theorem mem_updateD {α : Type} {m : List (String × α)} {k : String} {f : α → α}
    {kv' : String × α} (h : kv' ∈ updateD m k f) :
    kv' ∈ m ∨ ∃ v, lookupD m k = some v ∧ kv' = (k, f v) := by
  induction m with
  | nil => simp [updateD] at h
  | cons kv rest ih =>
      by_cases hk : kv.1 = k
      · simp only [updateD, if_pos hk, List.mem_cons] at h
        rcases h with h | h
        · exact Or.inr ⟨kv.2, by simp [lookupD, hk], by simpa [hk] using h⟩
        · exact Or.inl (List.mem_cons_of_mem _ h)
      · simp only [updateD, if_neg hk, List.mem_cons] at h
        rcases h with h | h
        · exact Or.inl (by simp [h])
        · rcases ih h with h' | ⟨v, hv, hkv⟩
          · exact Or.inl (List.mem_cons_of_mem _ h')
          · exact Or.inr ⟨v, by simp [lookupD, hk, hv], hkv⟩

theorem mem_eraseD {α : Type} {m : List (String × α)} {k : String}
    {kv' : String × α} (h : kv' ∈ eraseD m k) : kv' ∈ m := by
  induction m with
  | nil => simp [eraseD] at h
  | cons kv rest ih =>
      by_cases hk : kv.1 = k
      · simp only [eraseD, if_pos hk] at h
        exact List.mem_cons_of_mem _ (ih h)
      · simp only [eraseD, if_neg hk, List.mem_cons] at h
        rcases h with h | h
        · simp [h]
        · exact List.mem_cons_of_mem _ (ih h)

theorem lookupD_map {α β : Type} (m : List (String × α)) (g : α → β) (k : String) :
    lookupD (m.map (fun kv => (kv.1, g kv.2))) k = (lookupD m k).map g := by
  induction m with
  | nil => simp [lookupD]
  | cons kv rest ih =>
      by_cases hk : kv.1 = k
      · simp [lookupD, hk]
      · simp [lookupD, hk, ih]

/-! ### Shared concrete data and predicates -/

/-- Whether a response is a success payload (`success: true` in the JSON). -/
def isSuccess : Resp → Bool
  | .err _ => false
  | .crash => false
  | _ => true

/-- The empty persisted state (fresh `atm_data.json`). -/
def s0 : State :=
  { accounts := [], transactions := [], failed_attempts := [],
    locked_accounts := [], session_tokens := [] }

/-- The default preferences `register` installs. -/
def prefsDefault : Prefs :=
  { fast_cash_amount := 100, receipt_enabled := true, language := "en" }

/-- A freshly registered account with balance 100 (registered at minute 0). -/
def accAlice : Account :=
  { pin_hash := generate_password_hash "1234", balance := 100, name := "Alice",
    account_type := "Savings", daily_limit := 5000, daily_withdrawn := 0,
    last_reset := 0, created_at := 0, preferences := prefsDefault }

/-- The per-account invariant of the claim, plus `0 ≤ daily_limit`, which
holds in every reachable state because `register` sets `daily_limit` to
5000 and no operation ever modifies it. -/
def GoodAccount (a : Account) : Prop :=
  0 ≤ a.balance ∧ a.daily_withdrawn ≤ a.daily_limit ∧ 0 ≤ a.daily_limit

/-- All accounts of a snapshot satisfy the invariant. -/
def Inv (s : State) : Prop := ∀ kv ∈ s.accounts, GoodAccount kv.2

/-- The invariant on whatever the data file holds; the request body written
by `logout` contains no accounts at all. -/
def FileInv : FileContent → Prop
  | .state s => Inv s
  | .requestBody _ => True

theorem goodAccount_updateD {m : List (String × Account)} {k : String}
    {f : Account → Account} (hInv : ∀ kv ∈ m, GoodAccount kv.2) {v : Account}
    (hv : lookupD m k = some v) (hf : GoodAccount (f v)) :
    ∀ kv ∈ updateD m k f, GoodAccount kv.2 := by
  intro kv hkv
  rcases mem_updateD hkv with h | ⟨w, hw, rfl⟩
  · exact hInv _ h
  · rw [hv] at hw
    injection hw with h
    rw [← h]
    exact hf

theorem goodAccount_reset (now : Nat) (a : Account) (h : GoodAccount a) :
    GoodAccount (reset_account now a) := by
  unfold reset_account
  split
  · exact ⟨h.1, h.2.2, h.2.2⟩
  · exact h

/-! ### Claims -/

/-- State for the C1 scenario: one account, one session issued at minute 0
(so `expires_at = 30`) and never renewed; the operation happens at minute
31, i.e. with a token issued 31 minutes ago. -/
def sC1 : State :=
  { accounts := [("100001", accAlice)],
    transactions := [],
    failed_attempts := [], locked_accounts := [],
    session_tokens :=
      [("TOKEN1", { account_number := "100001", created_at := 0, expires_at := 30 })] }

/-- C1: the spec claims that every authenticated operation performed with an
expired, never-renewed session token (in particular one issued 31 minutes
ago) fails with `sessionExpired` and mutates nothing.  The code only
enforces expiry in `get_balance`; `withdraw` (like deposit, transfer,
listTransactions, changePin, fastCash, updatePreferences and
getAccountInfo) checks mere token presence.  Concretely: with the session
of `sC1` expired (`expires_at = 30 < 31 = now`), `get_balance` does report
`sessionExpired`, but `withdraw` succeeds and debits the balance.  The code
stores and renews `expires_at` on these very endpoints yet never reads it
there, so this is recorded as a code bug rather than intended behavior. -/
theorem c1_withdraw_succeeds_with_expired_session :
    lookupD sC1.session_tokens "TOKEN1" =
      some { account_number := "100001", created_at := 0, expires_at := 30 } ∧
    (get_balance sC1 "TOKEN1" 31).1 = Resp.err Err.sessionExpired ∧
    (withdraw sC1 "TOKEN1" 30 "" 31 "TX1").1 = Resp.opOk 70 "TX1" 31 ∧
    lookupD (withdraw sC1 "TOKEN1" 30 "" 31 "TX1").2.accounts "100001" =
      some { accAlice with balance := 70, daily_withdrawn := 30 } := by
  refine ⟨by norm_num [sC1, lookupD], ?_, ?_, ?_⟩ <;>
    norm_num [withdraw, get_balance, sC1, accAlice, prefsDefault, lookupD, updateD,
      generate_password_hash]

/-- State for the C2 scenario: one account, one transaction and one live
session.  Everything here should survive a logout untouched except the
session itself. -/
def sC2 : State :=
  { accounts := [("100001", accAlice)],
    transactions :=
      [{ id := "TX0", kind := "deposit", amount := 100, timestamp := 0,
         balance_after := 100, account_number := some "100001",
         from_account := none, to_account := none, note := some "Initial deposit" }],
    failed_attempts := [], locked_accounts := [],
    session_tokens :=
      [("TOKEN1", { account_number := "100001", created_at := 0, expires_at := 30 })] }

/-- C2: the spec claims logout removes the token's session from the
persisted state, leaves everything else unchanged, and is idempotent.  The
code removes the token from the in-memory snapshot but then calls
`save_data(data)` where `data` is the *request body*, so the file ends up
holding the request payload instead of the updated snapshot: the session
removal is never persisted and the accounts/transactions are clobbered.
Only the unknown-token half of the claim holds (nothing is saved, nothing
changes).  The spec itself (§9) flags this as a likely defect, so it is
recorded as a code bug. -/
theorem c2_logout_saves_request_body :
    (logout sC2 "TOKEN1").2 = FileContent.requestBody (some "TOKEN1") ∧
    (logout sC2 "TOKEN1").2 ≠
      FileContent.state { sC2 with session_tokens := eraseD sC2.session_tokens "TOKEN1" } ∧
    (logout sC2 "BADTOKEN").2 = FileContent.state sC2 :=
  ⟨rfl, by simp [logout, sC2, containsD, lookupD], rfl⟩

/-- C6: for withdraw, deposit, transfer and fastCash, every error response
is produced before any `save_data`, so the persisted state after an error
is exactly the state before the call. -/
theorem c6_errors_leave_state_unchanged :
    (∀ s token amount note now txn_id e,
        (withdraw s token amount note now txn_id).1 = Resp.err e →
        (withdraw s token amount note now txn_id).2 = s) ∧
    (∀ s token amount note now txn_id e,
        (deposit s token amount note now txn_id).1 = Resp.err e →
        (deposit s token amount note now txn_id).2 = s) ∧
    (∀ s token to_account amount note now txn_id e,
        (transfer s token to_account amount note now txn_id).1 = Resp.err e →
        (transfer s token to_account amount note now txn_id).2 = s) ∧
    (∀ s token now txn_id e,
        (fast_cash s token now txn_id).1 = Resp.err e →
        (fast_cash s token now txn_id).2 = s) := by
  refine ⟨?_, ?_, ?_, ?_⟩
  · intro s token amount note now txn_id e
    unfold withdraw
    repeat' split
    all_goals intro h
    all_goals first | rfl | simp at h
  · intro s token amount note now txn_id e
    unfold deposit
    repeat' split
    all_goals intro h
    all_goals first | rfl | simp at h
  · intro s token to_account amount note now txn_id e
    unfold transfer
    repeat' split
    all_goals intro h
    all_goals first | rfl | simp at h
  · intro s token now txn_id e
    unfold fast_cash
    dsimp only
    repeat' split
    all_goals intro h
    all_goals first | rfl | simp at h

/-- C6 witness: a withdrawal of amount 0 is rejected as a validation error
and, by the theorem, leaves the (empty) persisted state unchanged. -/
theorem c6_errors_leave_state_unchanged_witness :
    (withdraw s0 "TOKEN1" 0 "" 5 "TX1").1 = Resp.err Err.validation ∧
    (withdraw s0 "TOKEN1" 0 "" 5 "TX1").2 = s0 :=
  ⟨by norm_num [withdraw, s0],
   c6_errors_leave_state_unchanged.1 s0 "TOKEN1" 0 "" 5 "TX1" Err.validation
     (by norm_num [withdraw, s0])⟩

/-- C5: a successful transfer of amount X from the session's account A to a
recipient B debits A by exactly X, credits B by exactly X, preserves
balance(A) + balance(B), and appends exactly one transaction carrying both
account references and the sender's resulting balance.  The code guarantees
A ≠ B on success (first conjunct), so the two updates touch distinct
entries. -/
theorem c5_transfer_moves_funds
    (s : State) (token to_account : String) (amount : ℚ) (note : String)
    (now : Nat) (txn_id : String) (sess : Session) (aFrom aTo : Account)
    (nb : ℚ) (tid : String) (ts : Nat)
    (hses : lookupD s.session_tokens token = some sess)
    (hfrom : lookupD s.accounts sess.account_number = some aFrom)
    (hto : lookupD s.accounts to_account = some aTo)
    (hsucc : (transfer s token to_account amount note now txn_id).1 =
      Resp.opOk nb tid ts) :
    sess.account_number ≠ to_account ∧
    nb = aFrom.balance - amount ∧
    lookupD (transfer s token to_account amount note now txn_id).2.accounts
      sess.account_number = some { aFrom with balance := aFrom.balance - amount } ∧
    lookupD (transfer s token to_account amount note now txn_id).2.accounts
      to_account = some { aTo with balance := aTo.balance + amount } ∧
    (aFrom.balance - amount) + (aTo.balance + amount) = aFrom.balance + aTo.balance ∧
    (transfer s token to_account amount note now txn_id).2.transactions =
      s.transactions ++
        [{ id := txn_id, kind := "transfer", amount := amount, timestamp := now,
           balance_after := aFrom.balance - amount, account_number := none,
           from_account := some sess.account_number, to_account := some to_account,
           note := some note }] := by
  unfold transfer at hsucc ⊢
  simp only [hses, hfrom, hto] at hsucc ⊢
  split_ifs at hsucc ⊢ with h1 h2 h3 h4
  all_goals try simp at hsucc
  obtain ⟨e1, e2, e3⟩ := hsucc
  refine ⟨h3, e1.symm, ?_, ?_, by ring, rfl⟩
  · rw [lookupD_updateD_ne _ _ h3]
    exact lookupD_updateD_self _ _ hfrom
  · have hto1 : lookupD (updateD s.accounts sess.account_number
        (fun a => { a with balance := a.balance - amount })) to_account = some aTo := by
      rw [lookupD_updateD_ne _ _ (Ne.symm h3)]
      exact hto
    exact lookupD_updateD_self _ _ hto1

/-- Two-account state for the C5 witness: the sender holds 70 (scenario 4 of
the spec), the recipient 50. -/
def accBob : Account :=
  { accAlice with
      name := "Bob"
      balance := 50
      pin_hash := generate_password_hash "9999" }

def sC5 : State :=
  { accounts := [("100001", { accAlice with balance := 70 }), ("200002", accBob)],
    transactions := [], failed_attempts := [], locked_accounts := [],
    session_tokens :=
      [("TOKEN1", { account_number := "100001", created_at := 0, expires_at := 30 })] }

/-- C5 witness: transferring 50 out of a balance of 70 leaves the sender at
20 and lifts the recipient from 50 to 100. -/
theorem c5_transfer_moves_funds_witness :
    lookupD (transfer sC5 "TOKEN1" "200002" 50 "gift" 5 "TX9").2.accounts "100001" =
      some { accAlice with balance := 20 } ∧
    lookupD (transfer sC5 "TOKEN1" "200002" 50 "gift" 5 "TX9").2.accounts "200002" =
      some { accBob with balance := 100 } := by
  have h := c5_transfer_moves_funds sC5 "TOKEN1" "200002" 50 "gift" 5 "TX9"
    { account_number := "100001", created_at := 0, expires_at := 30 }
    { accAlice with balance := 70 } accBob 20 "TX9" 5
    (by simp [sC5, lookupD])
    (by simp [sC5, lookupD])
    (by simp [sC5, lookupD])
    (by simp [transfer, sC5, lookupD, updateD]; norm_num)
  refine ⟨?_, ?_⟩
  · rw [h.2.2.1]
    simp [accAlice, prefsDefault]
    norm_num
  · rw [h.2.2.2.1]
    simp [accBob, accAlice, prefsDefault]
    norm_num

/-- State for C9: one account and one session issued at minute 0. -/
def sC9 : State :=
  { accounts := [("100001", accAlice)], transactions := [], failed_attempts := [],
    locked_accounts := [],
    session_tokens :=
      [("TOKEN1", { account_number := "100001", created_at := 0, expires_at := 30 })] }

/-- C9 counterexample: the claim says every successful authenticated
operation renews the session expiry to now + 30.  A successful `change_pin`
performed at minute 5 leaves the session list — and in particular the
expiry, still 30 — completely unchanged (5 + 30 = 35 ≠ 30), refuting the
claim for changePin (and likewise updatePreferences and getAccountInfo,
covered by the amended theorem). -/
theorem c9_change_pin_no_renewal_cex :
    (change_pin sC9 "TOKEN1" "1234" "5678").1 = Resp.pinChanged ∧
    (change_pin sC9 "TOKEN1" "1234" "5678").2.session_tokens = sC9.session_tokens ∧
    lookupD (change_pin sC9 "TOKEN1" "1234" "5678").2.session_tokens "TOKEN1" =
      some { account_number := "100001", created_at := 0, expires_at := 30 } ∧
    (30 : Nat) ≠ 5 + 30 :=
  ⟨by decide, by decide, by decide, by norm_num⟩

/-- C9 (amended): getBalance, withdraw, deposit, transfer, listTransactions
and fastCash renew the resolved session's expiry to now + 30 exactly once on
success (account number and creation time of the session are untouched);
changePin and updatePreferences never touch the session list, and
getAccountInfo performs no save at all. -/
theorem c9_renewal_behavior :
    (∀ s token now sess, lookupD s.session_tokens token = some sess →
        isSuccess (get_balance s token now).1 = true →
        lookupD (get_balance s token now).2.session_tokens token =
          some { sess with expires_at := now + 30 }) ∧
    (∀ s token amount note now txn_id sess,
        lookupD s.session_tokens token = some sess →
        isSuccess (withdraw s token amount note now txn_id).1 = true →
        lookupD (withdraw s token amount note now txn_id).2.session_tokens token =
          some { sess with expires_at := now + 30 }) ∧
    (∀ s token amount note now txn_id sess,
        lookupD s.session_tokens token = some sess →
        isSuccess (deposit s token amount note now txn_id).1 = true →
        lookupD (deposit s token amount note now txn_id).2.session_tokens token =
          some { sess with expires_at := now + 30 }) ∧
    (∀ s token to_account amount note now txn_id sess,
        lookupD s.session_tokens token = some sess →
        isSuccess (transfer s token to_account amount note now txn_id).1 = true →
        lookupD (transfer s token to_account amount note now txn_id).2.session_tokens
          token = some { sess with expires_at := now + 30 }) ∧
    (∀ s token limit now sess,
        lookupD s.session_tokens token = some sess →
        isSuccess (get_transactions s token limit now).1 = true →
        lookupD (get_transactions s token limit now).2.session_tokens token =
          some { sess with expires_at := now + 30 }) ∧
    (∀ s token now txn_id sess,
        lookupD s.session_tokens token = some sess →
        isSuccess (fast_cash s token now txn_id).1 = true →
        lookupD (fast_cash s token now txn_id).2.session_tokens token =
          some { sess with expires_at := now + 30 }) ∧
    (∀ s token current_pin new_pin,
        (change_pin s token current_pin new_pin).2.session_tokens =
          s.session_tokens) ∧
    (∀ s token patch,
        (update_preferences s token patch).2.session_tokens = s.session_tokens) ∧
    (∀ s token, (get_account_info s token).2 = s) := by
  refine ⟨?_, ?_, ?_, ?_, ?_, ?_, ?_, ?_, ?_⟩
  · intro s token now sess hses hsucc
    unfold get_balance at hsucc ⊢
    simp only [hses] at hsucc ⊢
    repeat' split at hsucc
    all_goals first
      | (simp [isSuccess] at hsucc; done)
      | (simp [*]; exact lookupD_updateD_self _ _ hses)
  · intro s token amount note now txn_id sess hses hsucc
    unfold withdraw at hsucc ⊢
    simp only [hses] at hsucc ⊢
    repeat' split at hsucc
    all_goals first
      | (simp [isSuccess] at hsucc; done)
      | (simp [*]; exact lookupD_updateD_self _ _ hses)
  · intro s token amount note now txn_id sess hses hsucc
    unfold deposit at hsucc ⊢
    simp only [hses] at hsucc ⊢
    repeat' split at hsucc
    all_goals first
      | (simp [isSuccess] at hsucc; done)
      | (simp [*]; exact lookupD_updateD_self _ _ hses)
  · intro s token to_account amount note now txn_id sess hses hsucc
    unfold transfer at hsucc ⊢
    simp only [hses] at hsucc ⊢
    repeat' split at hsucc
    all_goals first
      | (simp [isSuccess] at hsucc; done)
      | (simp [*]; exact lookupD_updateD_self _ _ hses)
  · intro s token limit now sess hses hsucc
    unfold get_transactions at hsucc ⊢
    simp only [hses] at hsucc ⊢
    exact lookupD_updateD_self _ _ hses
  · intro s token now txn_id sess hses hsucc
    unfold fast_cash at hsucc ⊢
    simp only [hses] at hsucc ⊢
    repeat' split at hsucc
    all_goals first
      | (simp [isSuccess] at hsucc; done)
      | (simp [*]; exact lookupD_updateD_self _ _ hses)
  · intro s token current_pin new_pin
    unfold change_pin
    repeat' split
    all_goals rfl
  · intro s token patch
    unfold update_preferences
    repeat' split
    all_goals rfl
  · intro s token
    unfold get_account_info
    repeat' split
    all_goals rfl

/-- Second copy of the C9 state with a second account so the transfer
conjunct can be exercised. -/
def sC9w : State :=
  { accounts := [("100001", { accAlice with balance := 170 }), ("200002", accBob)],
    transactions := [], failed_attempts := [], locked_accounts := [],
    session_tokens :=
      [("TOKEN1", { account_number := "100001", created_at := 0, expires_at := 30 })] }

/-- C9 witness: each of the six renewing operations, run at minute 5 on a
session that would otherwise expire at minute 30, extends the expiry to
minute 35. -/
theorem c9_renewal_behavior_witness :
    lookupD (get_balance sC9w "TOKEN1" 5).2.session_tokens "TOKEN1" =
      some { account_number := "100001", created_at := 0, expires_at := 35 } ∧
    lookupD (withdraw sC9w "TOKEN1" 30 "" 5 "TX1").2.session_tokens "TOKEN1" =
      some { account_number := "100001", created_at := 0, expires_at := 35 } ∧
    lookupD (deposit sC9w "TOKEN1" 30 "" 5 "TX1").2.session_tokens "TOKEN1" =
      some { account_number := "100001", created_at := 0, expires_at := 35 } ∧
    lookupD (transfer sC9w "TOKEN1" "200002" 50 "" 5 "TX1").2.session_tokens "TOKEN1" =
      some { account_number := "100001", created_at := 0, expires_at := 35 } ∧
    lookupD (get_transactions sC9w "TOKEN1" 10 5).2.session_tokens "TOKEN1" =
      some { account_number := "100001", created_at := 0, expires_at := 35 } ∧
    lookupD (fast_cash sC9w "TOKEN1" 5 "TX1").2.session_tokens "TOKEN1" =
      some { account_number := "100001", created_at := 0, expires_at := 35 } := by
  refine ⟨c9_renewal_behavior.1 sC9w "TOKEN1" 5
      { account_number := "100001", created_at := 0, expires_at := 30 }
      (by simp [sC9w, lookupD]) ?_,
    c9_renewal_behavior.2.1 sC9w "TOKEN1" 30 "" 5 "TX1"
      { account_number := "100001", created_at := 0, expires_at := 30 }
      (by simp [sC9w, lookupD]) ?_,
    c9_renewal_behavior.2.2.1 sC9w "TOKEN1" 30 "" 5 "TX1"
      { account_number := "100001", created_at := 0, expires_at := 30 }
      (by simp [sC9w, lookupD]) ?_,
    c9_renewal_behavior.2.2.2.1 sC9w "TOKEN1" "200002" 50 "" 5 "TX1"
      { account_number := "100001", created_at := 0, expires_at := 30 }
      (by simp [sC9w, lookupD]) ?_,
    c9_renewal_behavior.2.2.2.2.1 sC9w "TOKEN1" 10 5
      { account_number := "100001", created_at := 0, expires_at := 30 }
      (by simp [sC9w, lookupD]) ?_,
    c9_renewal_behavior.2.2.2.2.2.1 sC9w "TOKEN1" 5 "TX1"
      { account_number := "100001", created_at := 0, expires_at := 30 }
      (by simp [sC9w, lookupD]) ?_⟩
  · norm_num [get_balance, sC9w, accAlice, accBob, prefsDefault, lookupD, updateD, isSuccess]
  · norm_num [withdraw, sC9w, accAlice, accBob, prefsDefault, lookupD, updateD, isSuccess]
  · norm_num [deposit, sC9w, accAlice, accBob, prefsDefault, lookupD, updateD, isSuccess]
  · simp [transfer, sC9w, accAlice, accBob, prefsDefault, lookupD, updateD, isSuccess]
    norm_num
  · norm_num [get_transactions, sC9w, accAlice, accBob, prefsDefault, lookupD, updateD,
      isSuccess]
  · norm_num [fast_cash, sC9w, accAlice, accBob, prefsDefault, lookupD, updateD, isSuccess]

/-- Accounts are untouched by `check_account_lock` (it only clears lockout
and failed-attempt entries). -/
theorem check_account_lock_accounts (s : State) (accNum : String) (now : Nat) :
    (check_account_lock s accNum now).2.2.accounts = s.accounts := by
  unfold check_account_lock
  repeat' split
  all_goals rfl

/-- State for the C3 counterexample: daily_withdrawn = 4000 out of a 5000
limit, balance 3000, last_reset on day 0; the withdrawal happens at minute
1500, i.e. on day 1. -/
def sC3 : State :=
  { accounts := [("100001", { accAlice with balance := 3000, daily_withdrawn := 4000 })],
    transactions := [], failed_attempts := [], locked_accounts := [],
    session_tokens :=
      [("TOKEN1", { account_number := "100001", created_at := 1490, expires_at := 1520 })] }

/-- C3 counterexample: the claim says withdraw (like every balance-affecting
operation) first applies the daily-reset rule, so with daily_withdrawn =
4000, limit = 5000 and the operation on a later calendar day, a withdrawal
of 2000 would see daily_withdrawn = 0 and succeed (2000 <= 5000 and 2000 <=
balance 3000).  The code resets only inside `login`; this withdrawal is
rejected with `LimitExceeded` and the state (in particular `last_reset`)
is unchanged. -/
theorem c3_withdraw_no_daily_reset_cex :
    dateOf 1500 > dateOf 0 ∧
    (0 : ℚ) + 2000 ≤ 5000 ∧
    (2000 : ℚ) ≤ 3000 ∧
    (withdraw sC3 "TOKEN1" 2000 "" 1500 "TX1").1 = Resp.err Err.limitExceeded ∧
    (withdraw sC3 "TOKEN1" 2000 "" 1500 "TX1").2 = sC3 := by
  refine ⟨by norm_num [dateOf], by norm_num, by norm_num, ?_, ?_⟩ <;>
    norm_num [withdraw, sC3, accAlice, prefsDefault, lookupD]

/-- C3 (amended): the daily-reset rule (`reset_account`: if `now.date() >
last_reset.date()` then daily_withdrawn := 0 and last_reset := now) is
applied to every account only during a successful login
(`reset_daily_limits` is called nowhere else).  None of the
balance-affecting operations applies it: withdraw's and fastCash's
daily-limit checks use the stored `daily_withdrawn` even when the operation
is on a later calendar day than `last_reset`; successful withdraw, deposit,
transfer and fastCash change only the balance (and, for withdraw/fastCash,
add to the stored `daily_withdrawn`), leaving `last_reset` untouched; and
getBalance reports `daily_limit - daily_withdrawn` from the stored counter
and leaves every account unchanged.  So the claimed reset before one of
these operations happens only if a successful login intervened after the
date change. -/
theorem c3_daily_reset_only_at_login :
    (∀ s accNum pin now tok k a,
        isSuccess (login s accNum pin now tok).1 = true →
        lookupD s.accounts k = some a →
        lookupD (login s accNum pin now tok).2.accounts k =
          some (reset_account now a)) ∧
    (∀ s token amount note now txn_id sess account,
        lookupD s.session_tokens token = some sess →
        lookupD s.accounts sess.account_number = some account →
        0 < amount → amount ≤ 10000 →
        dateOf now > dateOf account.last_reset →
        account.daily_limit < account.daily_withdrawn + amount →
        (withdraw s token amount note now txn_id).1 = Resp.err Err.limitExceeded) ∧
    (∀ s token amount note now txn_id sess account nb tid ts,
        lookupD s.session_tokens token = some sess →
        lookupD s.accounts sess.account_number = some account →
        (withdraw s token amount note now txn_id).1 = Resp.opOk nb tid ts →
        lookupD (withdraw s token amount note now txn_id).2.accounts
          sess.account_number =
          some { account with balance := account.balance - amount, daily_withdrawn := account.daily_withdrawn + amount }) ∧
    (∀ s token amount note now txn_id sess account nb tid ts,
        lookupD s.session_tokens token = some sess →
        lookupD s.accounts sess.account_number = some account →
        (deposit s token amount note now txn_id).1 = Resp.opOk nb tid ts →
        lookupD (deposit s token amount note now txn_id).2.accounts
          sess.account_number =
          some { account with balance := account.balance + amount }) ∧
    (∀ s token to_acc amount note now txn_id sess sender recipient nb tid ts,
        lookupD s.session_tokens token = some sess →
        lookupD s.accounts sess.account_number = some sender →
        lookupD s.accounts to_acc = some recipient →
        (transfer s token to_acc amount note now txn_id).1 = Resp.opOk nb tid ts →
        lookupD (transfer s token to_acc amount note now txn_id).2.accounts
          sess.account_number =
          some { sender with balance := sender.balance - amount } ∧
        lookupD (transfer s token to_acc amount note now txn_id).2.accounts to_acc =
          some { recipient with balance := recipient.balance + amount }) ∧
    (∀ s token now txn_id sess account,
        lookupD s.session_tokens token = some sess →
        lookupD s.accounts sess.account_number = some account →
        dateOf now > dateOf account.last_reset →
        account.preferences.fast_cash_amount ≤ account.balance →
        account.daily_limit <
          account.daily_withdrawn + account.preferences.fast_cash_amount →
        (fast_cash s token now txn_id).1 = Resp.err Err.limitExceeded) ∧
    (∀ s token now txn_id sess account amt2 nb tid,
        lookupD s.session_tokens token = some sess →
        lookupD s.accounts sess.account_number = some account →
        (fast_cash s token now txn_id).1 = Resp.fastCashOk amt2 nb tid →
        lookupD (fast_cash s token now txn_id).2.accounts sess.account_number =
          some { account with balance := account.balance - account.preferences.fast_cash_amount, daily_withdrawn := account.daily_withdrawn + account.preferences.fast_cash_amount }) ∧
    (∀ s token now sess account,
        lookupD s.session_tokens token = some sess →
        lookupD s.accounts sess.account_number = some account →
        dateOf now > dateOf account.last_reset →
        now ≤ sess.expires_at →
        (get_balance s token now).1 =
          Resp.balanceOk account.balance account.daily_limit
            (account.daily_limit - account.daily_withdrawn) account.account_type ∧
        (get_balance s token now).2.accounts = s.accounts) := by
  refine ⟨?_, ?_, ?_, ?_, ?_, ?_, ?_, ?_⟩
  · intro s accNum pin now tok k a hsucc ha
    unfold login at hsucc ⊢
    dsimp only at hsucc ⊢
    repeat' split at hsucc
    all_goals first
      | (simp [isSuccess] at hsucc; done)
      | (simp [*, reset_daily_limits, lookupD_map, check_account_lock_accounts, ha])
  · intro s token amount note now txn_id sess account hses hacc h1 h2 hdate hlim
    unfold withdraw
    simp only [hses, hacc]
    rw [if_neg (not_le.mpr h1), if_neg (not_lt.mpr h2), if_pos hlim]
  · intro s token amount note now txn_id sess account nb tid ts hses hacc hsucc
    unfold withdraw at hsucc ⊢
    simp only [hses, hacc] at hsucc ⊢
    split_ifs at hsucc ⊢ with h1 h2 h3 h4
    all_goals try simp at hsucc
    exact lookupD_updateD_self _ _ hacc
  · intro s token amount note now txn_id sess account nb tid ts hses hacc hsucc
    unfold deposit at hsucc ⊢
    simp only [hses, hacc] at hsucc ⊢
    split_ifs at hsucc ⊢ with h1 h2
    all_goals try simp at hsucc
    exact lookupD_updateD_self _ _ hacc
  · intro s token to_acc amount note now txn_id sess sender recipient nb tid ts
      hses hfrom hto hsucc
    unfold transfer at hsucc ⊢
    simp only [hses, hfrom, hto] at hsucc ⊢
    split_ifs at hsucc ⊢ with h1 h2 h3 h4
    all_goals try simp at hsucc
    refine ⟨?_, ?_⟩
    · rw [lookupD_updateD_ne _ _ h3]
      exact lookupD_updateD_self _ _ hfrom
    · have hto1 : lookupD (updateD s.accounts sess.account_number
          (fun a => { a with balance := a.balance - amount })) to_acc =
          some recipient := by
        rw [lookupD_updateD_ne _ _ (Ne.symm h3)]
        exact hto
      exact lookupD_updateD_self _ _ hto1
  · intro s token now txn_id sess account hses hacc hdate hp hlim
    unfold fast_cash
    simp only [hses, hacc]
    rw [if_neg (not_lt.mpr hp), if_pos hlim]
  · intro s token now txn_id sess account amt2 nb tid hses hacc hsucc
    unfold fast_cash at hsucc ⊢
    simp only [hses, hacc] at hsucc ⊢
    split_ifs at hsucc ⊢ with h1 h2
    all_goals try simp at hsucc
    exact lookupD_updateD_self _ _ hacc
  · intro s token now sess account hses hacc hdate hnow
    unfold get_balance
    simp only [hses, hacc]
    rw [if_neg (not_lt.mpr hnow)]
    exact ⟨rfl, rfl⟩

/-- State for the C3 witness: the counterexample's account (balance 3000,
daily_withdrawn 4000 of 5000, last_reset on day 0) plus a recipient for the
transfer conjunct; every operation below runs at minute 1500, i.e. on the
next calendar day. -/
def sC3w : State :=
  { accounts := [("100001", { accAlice with balance := 3000, daily_withdrawn := 4000 }),
      ("200002", accBob)],
    transactions := [], failed_attempts := [], locked_accounts := [],
    session_tokens :=
      [("TOKEN1", { account_number := "100001", created_at := 1490, expires_at := 1520 })] }

/-- Variant of the C3 witness state whose stale counter (4950) also blocks
the configured fast-cash amount of 100. -/
def sC3x : State :=
  { accounts := [("100001", { accAlice with balance := 3000, daily_withdrawn := 4950 })],
    transactions := [], failed_attempts := [], locked_accounts := [],
    session_tokens :=
      [("TOKEN1", { account_number := "100001", created_at := 1490, expires_at := 1520 })] }

/-- C3 witness: a successful login at minute 1500 (day 1) resets the
account whose last_reset is minute 0 (day 0); without that login, at the
same instant, a withdrawal of 2000 is refused by the stale counter; a
withdrawal of 500 succeeds and adds to the stale counter with last_reset
still 0; a deposit of 100 and a transfer of 100 change only balances;
fastCash is refused by the stale counter at 4950 and, at 4000, succeeds by
adding to it; getBalance reports the stale remaining amount 5000 - 4000 and
leaves the accounts untouched. -/
theorem c3_daily_reset_only_at_login_witness :
    lookupD (login sC3w "100001" "1234" 1500 "TOKEN2").2.accounts "100001" =
      some (reset_account 1500 { accAlice with balance := 3000, daily_withdrawn := 4000 }) ∧
    (withdraw sC3w "TOKEN1" 2000 "" 1500 "TX1").1 = Resp.err Err.limitExceeded ∧
    lookupD (withdraw sC3w "TOKEN1" 500 "" 1500 "TX1").2.accounts "100001" =
      some { { accAlice with balance := 3000, daily_withdrawn := 4000 } with balance := (3000 : ℚ) - 500, daily_withdrawn := (4000 : ℚ) + 500 } ∧
    lookupD (deposit sC3w "TOKEN1" 100 "" 1500 "TX2").2.accounts "100001" =
      some { { accAlice with balance := 3000, daily_withdrawn := 4000 } with balance := (3000 : ℚ) + 100 } ∧
    lookupD (transfer sC3w "TOKEN1" "200002" 100 "" 1500 "TX3").2.accounts "100001" =
      some { { accAlice with balance := 3000, daily_withdrawn := 4000 } with balance := (3000 : ℚ) - 100 } ∧
    (fast_cash sC3x "TOKEN1" 1500 "TX4").1 = Resp.err Err.limitExceeded ∧
    lookupD (fast_cash sC3w "TOKEN1" 1500 "TX5").2.accounts "100001" =
      some { { accAlice with balance := 3000, daily_withdrawn := 4000 } with balance := (3000 : ℚ) - 100, daily_withdrawn := (4000 : ℚ) + 100 } ∧
    (get_balance sC3w "TOKEN1" 1500).1 =
      Resp.balanceOk 3000 5000 ((5000 : ℚ) - 4000) "Savings" ∧
    (get_balance sC3w "TOKEN1" 1500).2.accounts = sC3w.accounts := by
  have hA : lookupD sC3w.accounts "100001" =
      some { accAlice with balance := 3000, daily_withdrawn := 4000 } := by
    simp [sC3w, lookupD]
  have hB : lookupD sC3w.accounts "200002" = some accBob := by
    simp [sC3w, lookupD]
  have hT : lookupD sC3w.session_tokens "TOKEN1" =
      some { account_number := "100001", created_at := 1490, expires_at := 1520 } := by
    simp [sC3w, lookupD]
  refine ⟨c3_daily_reset_only_at_login.1 sC3w "100001" "1234" 1500 "TOKEN2" "100001"
      { accAlice with balance := 3000, daily_withdrawn := 4000 } ?_ hA,
    c3_daily_reset_only_at_login.2.1 sC3w "TOKEN1" 2000 "" 1500 "TX1"
      { account_number := "100001", created_at := 1490, expires_at := 1520 }
      { accAlice with balance := 3000, daily_withdrawn := 4000 }
      hT hA (by norm_num) (by norm_num) (by norm_num [dateOf, accAlice, prefsDefault])
      (by norm_num [accAlice, prefsDefault]),
    c3_daily_reset_only_at_login.2.2.1 sC3w "TOKEN1" 500 "" 1500 "TX1"
      { account_number := "100001", created_at := 1490, expires_at := 1520 }
      { accAlice with balance := 3000, daily_withdrawn := 4000 } ((3000 : ℚ) - 500) "TX1" 1500
      hT hA ?_,
    c3_daily_reset_only_at_login.2.2.2.1 sC3w "TOKEN1" 100 "" 1500 "TX2"
      { account_number := "100001", created_at := 1490, expires_at := 1520 }
      { accAlice with balance := 3000, daily_withdrawn := 4000 } ((3000 : ℚ) + 100) "TX2" 1500
      hT hA ?_,
    (c3_daily_reset_only_at_login.2.2.2.2.1 sC3w "TOKEN1" "200002" 100 "" 1500 "TX3"
      { account_number := "100001", created_at := 1490, expires_at := 1520 }
      { accAlice with balance := 3000, daily_withdrawn := 4000 } accBob
      ((3000 : ℚ) - 100) "TX3" 1500 hT hA hB ?_).1,
    c3_daily_reset_only_at_login.2.2.2.2.2.1 sC3x "TOKEN1" 1500 "TX4"
      { account_number := "100001", created_at := 1490, expires_at := 1520 }
      { accAlice with balance := 3000, daily_withdrawn := 4950 }
      (by simp [sC3x, lookupD]) (by simp [sC3x, lookupD])
      (by norm_num [dateOf, accAlice, prefsDefault])
      (by norm_num [accAlice, prefsDefault]) (by norm_num [accAlice, prefsDefault]),
    c3_daily_reset_only_at_login.2.2.2.2.2.2.1 sC3w "TOKEN1" 1500 "TX5"
      { account_number := "100001", created_at := 1490, expires_at := 1520 }
      { accAlice with balance := 3000, daily_withdrawn := 4000 } 100 ((3000 : ℚ) - 100)
      "TX5" hT hA ?_,
    ?_⟩
  · simp [login, sC3w, check_account_lock, lookupD, accAlice, prefsDefault,
      generate_password_hash, check_password_hash, isSuccess]
  · norm_num [withdraw, sC3w, lookupD, accAlice, prefsDefault]
  · norm_num [deposit, sC3w, lookupD, accAlice, prefsDefault]
  · simp [transfer, sC3w, lookupD, updateD, accAlice, accBob, prefsDefault]
    norm_num
  · simp [fast_cash, sC3w, lookupD, updateD, accAlice, prefsDefault]
    norm_num
  · have h8 := c3_daily_reset_only_at_login.2.2.2.2.2.2.2 sC3w "TOKEN1" 1500
      { account_number := "100001", created_at := 1490, expires_at := 1520 }
      { accAlice with balance := 3000, daily_withdrawn := 4000 }
      hT hA (by norm_num [dateOf, accAlice, prefsDefault]) (by norm_num)
    exact ⟨by simpa [accAlice, prefsDefault] using h8.1, h8.2⟩

/-- State for the C8 counterexample: the account's configured fast-cash
amount has been set to -5 (updatePreferences accepts it, see C10). -/
def sC8 : State :=
  { accounts :=
      [("100001",
        { accAlice with preferences := { prefsDefault with fast_cash_amount := -5 } })],
    transactions := [], failed_attempts := [], locked_accounts := [],
    session_tokens :=
      [("TOKEN1", { account_number := "100001", created_at := 0, expires_at := 30 })] }

/-- C8 counterexample: the claim asserts that fastCash (like withdraw)
increases the sender's daily_withdrawn.  With a configured fast-cash amount
of -5, fastCash succeeds (both checks pass) and daily_withdrawn moves from
0 to -5, which is not an increase. -/
theorem c8_fast_cash_negative_cex :
    (fast_cash sC8 "TOKEN1" 7 "TX1").1 = Resp.fastCashOk (-5) 105 "TX1" ∧
    lookupD (fast_cash sC8 "TOKEN1" 7 "TX1").2.accounts "100001" =
      some { accAlice with balance := 105, daily_withdrawn := -5, preferences := { prefsDefault with fast_cash_amount := -5 } } ∧
    ¬ ((-5 : ℚ) > (0 : ℚ)) := by
  refine ⟨?_, ?_, by norm_num⟩ <;>
    norm_num [fast_cash, sC8, accAlice, prefsDefault, lookupD, updateD]

/-- C8 (amended): transfers are not subject to the daily withdrawal limit —
a valid transfer succeeds even when daily_withdrawn + amount exceeds
daily_limit, and it leaves the daily_withdrawn of both sender and recipient
unchanged — while withdraw and fastCash both refuse when daily_withdrawn +
amount would exceed daily_limit and, on success, add the amount to the
sender's daily_withdrawn.  For withdraw the amount is validated positive,
so daily_withdrawn strictly increases; fastCash applies no positivity
check, so with a non-positive configured amount its daily_withdrawn does
not increase (see the counterexample). -/
theorem c8_daily_limit_asymmetry :
    (∀ s token to_account amount note now txn_id sess aFrom aTo,
        lookupD s.session_tokens token = some sess →
        lookupD s.accounts sess.account_number = some aFrom →
        lookupD s.accounts to_account = some aTo →
        sess.account_number ≠ to_account →
        0 < amount → amount ≤ 10000 → amount ≤ aFrom.balance →
        aFrom.daily_limit < aFrom.daily_withdrawn + amount →
        (transfer s token to_account amount note now txn_id).1 =
          Resp.opOk (aFrom.balance - amount) txn_id now ∧
        lookupD (transfer s token to_account amount note now txn_id).2.accounts
          sess.account_number = some { aFrom with balance := aFrom.balance - amount } ∧
        lookupD (transfer s token to_account amount note now txn_id).2.accounts
          to_account = some { aTo with balance := aTo.balance + amount }) ∧
    (∀ s token amount note now txn_id sess account,
        lookupD s.session_tokens token = some sess →
        lookupD s.accounts sess.account_number = some account →
        0 < amount → amount ≤ 10000 →
        (account.daily_limit < account.daily_withdrawn + amount →
          (withdraw s token amount note now txn_id).1 = Resp.err Err.limitExceeded) ∧
        (account.daily_withdrawn + amount ≤ account.daily_limit →
          amount ≤ account.balance →
          lookupD (withdraw s token amount note now txn_id).2.accounts
            sess.account_number =
            some { account with balance := account.balance - amount, daily_withdrawn := account.daily_withdrawn + amount } ∧
          account.daily_withdrawn < account.daily_withdrawn + amount)) ∧
    (∀ s token now txn_id sess account,
        lookupD s.session_tokens token = some sess →
        lookupD s.accounts sess.account_number = some account →
        account.preferences.fast_cash_amount ≤ account.balance →
        (account.daily_limit <
            account.daily_withdrawn + account.preferences.fast_cash_amount →
          (fast_cash s token now txn_id).1 = Resp.err Err.limitExceeded) ∧
        (account.daily_withdrawn + account.preferences.fast_cash_amount ≤
            account.daily_limit →
          lookupD (fast_cash s token now txn_id).2.accounts sess.account_number =
            some { account with balance := account.balance - account.preferences.fast_cash_amount, daily_withdrawn := account.daily_withdrawn + account.preferences.fast_cash_amount })) := by
  refine ⟨?_, ?_, ?_⟩
  · intro s token to_account amount note now txn_id sess aFrom aTo hses hfrom hto hne
      h1 h2 h3 h4
    unfold transfer
    simp only [hses, hfrom, hto]
    rw [if_neg (not_le.mpr h1), if_neg (not_lt.mpr h2), if_neg hne,
      if_neg (not_lt.mpr h3)]
    refine ⟨rfl, ?_, ?_⟩
    · rw [lookupD_updateD_ne _ _ hne]
      exact lookupD_updateD_self _ _ hfrom
    · have hto1 : lookupD (updateD s.accounts sess.account_number
          (fun a => { a with balance := a.balance - amount })) to_account = some aTo := by
        rw [lookupD_updateD_ne _ _ (Ne.symm hne)]
        exact hto
      exact lookupD_updateD_self _ _ hto1
  · intro s token amount note now txn_id sess account hses hacc h1 h2
    constructor
    · intro hlim
      unfold withdraw
      simp only [hses, hacc]
      rw [if_neg (not_le.mpr h1), if_neg (not_lt.mpr h2), if_pos hlim]
    · intro hle hbal
      unfold withdraw
      simp only [hses, hacc]
      rw [if_neg (not_le.mpr h1), if_neg (not_lt.mpr h2), if_neg (not_lt.mpr hle),
        if_neg (not_lt.mpr hbal)]
      exact ⟨lookupD_updateD_self _ _ hacc, lt_add_of_pos_right _ h1⟩
  · intro s token now txn_id sess account hses hacc hp
    constructor
    · intro hlim
      unfold fast_cash
      simp only [hses, hacc]
      rw [if_neg (not_lt.mpr hp), if_pos hlim]
    · intro hle
      unfold fast_cash
      simp only [hses, hacc]
      rw [if_neg (not_lt.mpr hp), if_neg (not_lt.mpr hle)]
      exact lookupD_updateD_self _ _ hacc

/-- State for the C8 witness: the sender has 4950 of the 5000 daily limit
already withdrawn but holds ample balance. -/
def sC8w : State :=
  { accounts := [("100001", { accAlice with balance := 3000, daily_withdrawn := 4950 }),
      ("200002", accBob)],
    transactions := [], failed_attempts := [], locked_accounts := [],
    session_tokens :=
      [("TOKEN1", { account_number := "100001", created_at := 0, expires_at := 30 })] }

/-- C8 witness: a transfer of 1000 succeeds although daily_withdrawn + 1000
= 5950 > 5000, and leaves both daily_withdrawn fields unchanged; a
withdrawal of 1000 in the same state is refused with LimitExceeded; a
withdrawal of 40 succeeds and raises daily_withdrawn from 4950 to 4990;
fastCash (configured amount 100, 4950 + 100 > 5000) is refused with
LimitExceeded. -/
theorem c8_daily_limit_asymmetry_witness :
    (transfer sC8w "TOKEN1" "200002" 1000 "" 5 "TX1").1 = Resp.opOk (3000 - 1000) "TX1" 5 ∧
    lookupD (transfer sC8w "TOKEN1" "200002" 1000 "" 5 "TX1").2.accounts "100001" =
      some { { accAlice with balance := 3000, daily_withdrawn := 4950 } with balance := (3000 : ℚ) - 1000 } ∧
    (withdraw sC8w "TOKEN1" 1000 "" 5 "TX1").1 = Resp.err Err.limitExceeded ∧
    lookupD (withdraw sC8w "TOKEN1" 40 "" 5 "TX1").2.accounts "100001" =
      some { { accAlice with balance := 3000, daily_withdrawn := 4950 } with balance := (3000 : ℚ) - 40, daily_withdrawn := (4950 : ℚ) + 40 } ∧
    (fast_cash sC8w "TOKEN1" 5 "TX1").1 = Resp.err Err.limitExceeded := by
  have ht := c8_daily_limit_asymmetry.1 sC8w "TOKEN1" "200002" 1000 "" 5 "TX1"
    { account_number := "100001", created_at := 0, expires_at := 30 }
    { accAlice with balance := 3000, daily_withdrawn := 4950 } accBob
    (by simp [sC8w, lookupD]) (by simp [sC8w, lookupD]) (by simp [sC8w, lookupD])
    (by simp) (by norm_num) (by norm_num)
    (by norm_num [accAlice, prefsDefault]) (by norm_num [accAlice, prefsDefault])
  have hw := c8_daily_limit_asymmetry.2.1 sC8w "TOKEN1" 1000 "" 5 "TX1"
    { account_number := "100001", created_at := 0, expires_at := 30 }
    { accAlice with balance := 3000, daily_withdrawn := 4950 }
    (by simp [sC8w, lookupD]) (by simp [sC8w, lookupD]) (by norm_num) (by norm_num)
  have hw2 := c8_daily_limit_asymmetry.2.1 sC8w "TOKEN1" 40 "" 5 "TX1"
    { account_number := "100001", created_at := 0, expires_at := 30 }
    { accAlice with balance := 3000, daily_withdrawn := 4950 }
    (by simp [sC8w, lookupD]) (by simp [sC8w, lookupD]) (by norm_num) (by norm_num)
  have hf := c8_daily_limit_asymmetry.2.2 sC8w "TOKEN1" 5 "TX1"
    { account_number := "100001", created_at := 0, expires_at := 30 }
    { accAlice with balance := 3000, daily_withdrawn := 4950 }
    (by simp [sC8w, lookupD]) (by simp [sC8w, lookupD])
    (by norm_num [accAlice, prefsDefault])
  refine ⟨by simpa using ht.1, by simpa using ht.2.1,
    hw.1 (by norm_num [accAlice, prefsDefault]), ?_,
    hf.1 (by norm_num [accAlice, prefsDefault])⟩
  have := (hw2.2 (by norm_num [accAlice, prefsDefault])
    (by norm_num [accAlice, prefsDefault])).1
  simpa using this

/-- The request payload `{"preferences": {"fast_cash_amount": q}}`. -/
def fcPatch (q : ℚ) : PrefsPatch :=
  { fast_cash_amount := some q, receipt_enabled := none, language := none }

/-- C10: updatePreferences merges any supplied fast_cash_amount without
validation, and fastCash applies no positivity check: with a configured
amount q ≤ 0 both the insufficient-funds check and the daily-limit check
pass, the balance does not decrease (strictly increases for q < 0), and a
transaction with the non-positive amount q is appended to the log. -/
theorem c10_fast_cash_nonpositive
    (s : State) (token : String) (now : Nat) (txn_id : String)
    (sess : Session) (account : Account) (q : ℚ)
    (hses : lookupD s.session_tokens token = some sess)
    (hacc : lookupD s.accounts sess.account_number = some account)
    (hbal : 0 ≤ account.balance)
    (hdw : account.daily_withdrawn ≤ account.daily_limit)
    (hq : q ≤ 0) :
    (update_preferences s token (fcPatch q)).1 =
      Resp.prefsOk { account.preferences with fast_cash_amount := q } ∧
    lookupD (update_preferences s token (fcPatch q)).2.accounts sess.account_number =
      some { account with preferences := { account.preferences with fast_cash_amount := q } } ∧
    (fast_cash (update_preferences s token (fcPatch q)).2 token now txn_id).1 =
      Resp.fastCashOk q (account.balance - q) txn_id ∧
    account.balance ≤ account.balance - q ∧
    (q < 0 → account.balance < account.balance - q) ∧
    (fast_cash (update_preferences s token (fcPatch q)).2 token now txn_id).2.transactions =
      s.transactions ++
        [{ id := txn_id, kind := "fast_cash", amount := q, timestamp := now,
           balance_after := account.balance - q,
           account_number := some sess.account_number, from_account := none,
           to_account := none, note := none }] := by
  have hs1 : (update_preferences s token (fcPatch q)).2 =
      { s with accounts := updateD s.accounts sess.account_number (fun a => { a with preferences := apply_patch a.preferences (fcPatch q) }) } := by
    unfold update_preferences
    simp only [hses, hacc]
  have hses1 : lookupD (update_preferences s token (fcPatch q)).2.session_tokens token =
      some sess := by
    rw [hs1]
    exact hses
  have hacc1 : lookupD (update_preferences s token (fcPatch q)).2.accounts
      sess.account_number =
      some { account with preferences := { account.preferences with fast_cash_amount := q } } := by
    rw [hs1]
    have h2 := lookupD_updateD_self s.accounts
      (fun a => { a with preferences := apply_patch a.preferences (fcPatch q) }) hacc
    simpa [apply_patch, fcPatch] using h2
  have hfc : fast_cash (update_preferences s token (fcPatch q)).2 token now txn_id =
      (Resp.fastCashOk q (account.balance - q) txn_id,
       { (update_preferences s token (fcPatch q)).2 with
          accounts := updateD (update_preferences s token (fcPatch q)).2.accounts
            sess.account_number
            (fun a => { a with balance := a.balance - q, daily_withdrawn := a.daily_withdrawn + q }),
          transactions := (update_preferences s token (fcPatch q)).2.transactions ++
            [{ id := txn_id, kind := "fast_cash", amount := q, timestamp := now,
               balance_after := account.balance - q,
               account_number := some sess.account_number, from_account := none,
               to_account := none, note := none }],
          session_tokens := updateD
            (update_preferences s token (fcPatch q)).2.session_tokens token
            (fun sd => { sd with expires_at := now + 30 }) }) := by
    unfold fast_cash
    simp only [hses1, hacc1]
    rw [if_neg (not_lt.mpr (hq.trans hbal)), if_neg (not_lt.mpr (by linarith))]
  refine ⟨?_, hacc1, ?_, by linarith, fun h0 => by linarith, ?_⟩
  · unfold update_preferences
    simp only [hses, hacc]
    simp [apply_patch, fcPatch]
  · rw [hfc]
  · rw [hfc]
    rw [hs1]

/-- State for the C10 witness: default account, session, fast-cash amount
to be reconfigured to -5. -/
def sC10 : State :=
  { accounts := [("100001", accAlice)], transactions := [], failed_attempts := [],
    locked_accounts := [],
    session_tokens :=
      [("TOKEN1", { account_number := "100001", created_at := 0, expires_at := 30 })] }

/-- C10 witness: setting fast_cash_amount to -5 via updatePreferences and
then calling fastCash succeeds, yields balance 100 - (-5) = 105, and logs a
transaction of amount -5. -/
theorem c10_fast_cash_nonpositive_witness :
    (fast_cash (update_preferences sC10 "TOKEN1" (fcPatch (-5))).2 "TOKEN1" 7 "TX1").1 =
      Resp.fastCashOk (-5) (100 - (-5)) "TX1" ∧
    (100 : ℚ) ≤ 100 - (-5) ∧
    (fast_cash (update_preferences sC10 "TOKEN1" (fcPatch (-5))).2 "TOKEN1" 7 "TX1").2.transactions =
      sC10.transactions ++
        [{ id := "TX1", kind := "fast_cash", amount := -5, timestamp := 7,
           balance_after := (100 : ℚ) - (-5), account_number := some "100001",
           from_account := none, to_account := none, note := none }] := by
  have h := c10_fast_cash_nonpositive sC10 "TOKEN1" 7 "TX1"
    { account_number := "100001", created_at := 0, expires_at := 30 } accAlice (-5)
    (by simp [sC10, lookupD]) (by simp [sC10, lookupD])
    (by norm_num [accAlice, prefsDefault]) (by norm_num [accAlice, prefsDefault])
    (by norm_num)
  exact ⟨h.2.2.1, h.2.2.2.1, h.2.2.2.2.2⟩

/-- C7: the lockout state machine.  (i) With no lock present and two prior
consecutive failures recorded, a third wrong-PIN attempt sets the lockout
timestamp to now and reports locked; (ii) with fewer than two prior
failures a wrong PIN reports invalidPin with the remaining-attempt count
and sets no lock; (iii) while a lock exists and fewer than 30 minutes have
elapsed, login fails with locked (and the remaining minutes) regardless of
the submitted PIN — the persisted state, in particular every counter, is
untouched; (iv) once 30 minutes have elapsed, the lock record and the
failed-attempt counter are cleared and a correct PIN logs in successfully.
The nonempty-credential hypotheses reflect the request-shape check that
precedes authentication (app.py:142). -/
theorem c7_lockout_behavior :
    (∀ s accNum pin now tok account,
        accNum ≠ "" → pin ≠ "" →
        lookupD s.locked_accounts accNum = none →
        lookupD s.accounts accNum = some account →
        check_password_hash account.pin_hash pin = false →
        (lookupD s.failed_attempts accNum).getD 0 = 2 →
        (login s accNum pin now tok).1 = Resp.err (Err.locked 30) ∧
        lookupD (login s accNum pin now tok).2.locked_accounts accNum = some now) ∧
    (∀ s accNum pin now tok account c,
        accNum ≠ "" → pin ≠ "" →
        lookupD s.locked_accounts accNum = none →
        lookupD s.accounts accNum = some account →
        check_password_hash account.pin_hash pin = false →
        (lookupD s.failed_attempts accNum).getD 0 = c → c + 1 < 3 →
        (login s accNum pin now tok).1 = Resp.err (Err.invalidPin (3 - (c + 1))) ∧
        lookupD (login s accNum pin now tok).2.locked_accounts accNum = none ∧
        lookupD (login s accNum pin now tok).2.failed_attempts accNum = some (c + 1)) ∧
    (∀ s accNum pin now tok lockT,
        accNum ≠ "" → pin ≠ "" →
        lookupD s.locked_accounts accNum = some lockT →
        now < lockT + 30 →
        (login s accNum pin now tok).1 = Resp.err (Err.locked (lockT + 30 - now)) ∧
        (login s accNum pin now tok).2 = s) ∧
    (∀ s accNum pin now tok lockT account,
        accNum ≠ "" → pin ≠ "" →
        lookupD s.locked_accounts accNum = some lockT →
        lockT + 30 ≤ now →
        lookupD s.accounts accNum = some account →
        check_password_hash account.pin_hash pin = true →
        (login s accNum pin now tok).1 =
          Resp.loginOk tok accNum account.name account.account_type account.balance ∧
        lookupD (login s accNum pin now tok).2.locked_accounts accNum = none ∧
        lookupD (login s accNum pin now tok).2.failed_attempts accNum = none) := by
  refine ⟨?_, ?_, ?_, ?_⟩
  · intro s accNum pin now tok account h1 h2 hlock hacc hwrong hcount
    have hne : ¬(accNum = "" ∨ pin = "") := not_or.mpr ⟨h1, h2⟩
    have hcal : check_account_lock s accNum now = (false, 0, s) := by
      simp only [check_account_lock, hlock]
    simp [login, hne, hcal, hacc, hwrong, hcount, lookupD_insertD_self]
  · intro s accNum pin now tok account c h1 h2 hlock hacc hwrong hcount hc
    have hne : ¬(accNum = "" ∨ pin = "") := not_or.mpr ⟨h1, h2⟩
    have hcal : check_account_lock s accNum now = (false, 0, s) := by
      simp only [check_account_lock, hlock]
    have hni : ¬(3 ≤ c + 1) := not_le.mpr hc
    simp [login, hne, hcal, hacc, hwrong, hcount, hni, hlock, lookupD_insertD_self]
  · intro s accNum pin now tok lockT h1 h2 hlock hwin
    have hne : ¬(accNum = "" ∨ pin = "") := not_or.mpr ⟨h1, h2⟩
    have hcal : check_account_lock s accNum now = (true, lockT + 30 - now, s) := by
      simp only [check_account_lock, hlock]
      rw [if_pos hwin]
    simp [login, hne, hcal]
  · intro s accNum pin now tok lockT account h1 h2 hlock helap hacc hright
    have hne : ¬(accNum = "" ∨ pin = "") := not_or.mpr ⟨h1, h2⟩
    have hcal : check_account_lock s accNum now =
        (false, 0,
         { s with locked_accounts := eraseD s.locked_accounts accNum,
                  failed_attempts := eraseD s.failed_attempts accNum }) := by
      simp only [check_account_lock, hlock]
      rw [if_neg (not_lt.mpr helap)]
    simp [login, hne, hcal, hacc, hright, reset_daily_limits, lookupD_eraseD_self]

/-- States for the C7 witness: (a) two prior failures, (b) one prior
failure, (c) locked 10 minutes ago, (d) locked 30 minutes ago. -/
def sC7a : State :=
  { accounts := [("100001", accAlice)], transactions := [],
    failed_attempts := [("100001", 2)], locked_accounts := [], session_tokens := [] }

def sC7b : State :=
  { accounts := [("100001", accAlice)], transactions := [],
    failed_attempts := [("100001", 1)], locked_accounts := [], session_tokens := [] }

def sC7c : State :=
  { accounts := [("100001", accAlice)], transactions := [],
    failed_attempts := [("100001", 3)], locked_accounts := [("100001", 40)],
    session_tokens := [] }

/-- C7 witness: at minute 50, a third wrong PIN locks the account; with one
prior failure a wrong PIN reports 1 attempt remaining; while locked since
minute 40, even the correct PIN is refused at minute 50 (20 minutes
remaining) with no state change; at minute 70 the correct PIN succeeds and
both the lock and the counter are gone. -/
theorem c7_lockout_behavior_witness :
    ((login sC7a "100001" "9999" 50 "TOKEN9").1 = Resp.err (Err.locked 30) ∧
      lookupD (login sC7a "100001" "9999" 50 "TOKEN9").2.locked_accounts "100001" =
        some 50) ∧
    ((login sC7b "100001" "9999" 50 "TOKEN9").1 = Resp.err (Err.invalidPin 1) ∧
      lookupD (login sC7b "100001" "9999" 50 "TOKEN9").2.locked_accounts "100001" =
        none ∧
      lookupD (login sC7b "100001" "9999" 50 "TOKEN9").2.failed_attempts "100001" =
        some 2) ∧
    ((login sC7c "100001" "1234" 50 "TOKEN9").1 = Resp.err (Err.locked 20) ∧
      (login sC7c "100001" "1234" 50 "TOKEN9").2 = sC7c) ∧
    ((login sC7c "100001" "1234" 70 "TOKEN9").1 =
        Resp.loginOk "TOKEN9" "100001" accAlice.name accAlice.account_type
          accAlice.balance ∧
      lookupD (login sC7c "100001" "1234" 70 "TOKEN9").2.locked_accounts "100001" =
        none ∧
      lookupD (login sC7c "100001" "1234" 70 "TOKEN9").2.failed_attempts "100001" =
        none) := by
  refine ⟨c7_lockout_behavior.1 sC7a "100001" "9999" 50 "TOKEN9" accAlice
      (by decide) (by decide) (by decide) (by simp [sC7a, lookupD]) (by decide)
      (by decide),
    ?_,
    c7_lockout_behavior.2.2.1 sC7c "100001" "1234" 50 "TOKEN9" 40
      (by decide) (by decide) (by decide) (by decide),
    c7_lockout_behavior.2.2.2 sC7c "100001" "1234" 70 "TOKEN9" 40 accAlice
      (by decide) (by decide) (by decide) (by decide) (by simp [sC7c, lookupD])
      (by decide)⟩
  have h := c7_lockout_behavior.2.1 sC7b "100001" "9999" 50 "TOKEN9" accAlice 1
    (by decide) (by decide) (by decide) (by simp [sC7b, lookupD]) (by decide)
    (by decide) (by decide)
  exact h

/-- A state whose accounts coincide with those of `s` inherits `Inv`. -/
theorem inv_of_accounts_eq {s t : State} (h : t.accounts = s.accounts)
    (hInv : Inv s) : Inv t := by
  intro kv hkv
  rw [h] at hkv
  exact hInv _ hkv

/-- C4: every operation preserves the per-account invariant.  `GoodAccount`
is the claim's `balance ≥ 0 ∧ daily_withdrawn ≤ daily_limit` strengthened
with `0 ≤ daily_limit`, which holds in every reachable state because
`register` sets `daily_limit = 5000` and no operation ever writes that
field (the strengthening is needed — and justified — for login's daily
reset, which zeroes `daily_withdrawn`).  `logout` is stated against
`FileInv` because it writes the request body to the data file (see C2);
that file contains no accounts, so the invariant holds vacuously there. -/
theorem c4_invariants_preserved :
    (∀ s name pin d accNum tid now,
        Inv s → Inv (register s name pin d accNum tid now).2) ∧
    (∀ s accNum pin now tok, Inv s → Inv (login s accNum pin now tok).2) ∧
    (∀ s tok, Inv s → FileInv (logout s tok).2) ∧
    (∀ s tok amt note now tid, Inv s → Inv (withdraw s tok amt note now tid).2) ∧
    (∀ s tok amt note now tid, Inv s → Inv (deposit s tok amt note now tid).2) ∧
    (∀ s tok to_acc amt note now tid, Inv s → Inv (transfer s tok to_acc amt note now tid).2) ∧
    (∀ s tok now tid, Inv s → Inv (fast_cash s tok now tid).2) ∧
    (∀ s tok cp np, Inv s → Inv (change_pin s tok cp np).2) ∧
    (∀ s tok patch, Inv s → Inv (update_preferences s tok patch).2) := by
  refine ⟨?_, ?_, ?_, ?_, ?_, ?_, ?_, ?_, ?_⟩
  · intro s name pin d accNum tid now hInv
    unfold register
    split
    · exact hInv
    split
    · exact hInv
    split
    · exact hInv
    rename_i hd
    dsimp only
    split
    all_goals intro kv hkv
    all_goals rcases mem_insertD hkv with h | h
    all_goals try exact hInv _ h
    all_goals rw [h]
    all_goals exact ⟨not_lt.mp hd, by norm_num, by norm_num⟩
  · intro s accNum pin now tok hInv
    unfold login
    dsimp only
    split
    · exact hInv
    split
    · exact inv_of_accounts_eq (check_account_lock_accounts s accNum now) hInv
    split
    · exact inv_of_accounts_eq (check_account_lock_accounts s accNum now) hInv
    split
    · intro kv hkv
      simp only [reset_daily_limits] at hkv
      rcases List.mem_map.mp hkv with ⟨kv0, hkv0, rfl⟩
      have hk0 : kv0 ∈ s.accounts := by
        have h' : kv0 ∈ (check_account_lock s accNum now).2.2.accounts := hkv0
        rwa [check_account_lock_accounts] at h'
      exact goodAccount_reset _ _ (hInv _ hk0)
    · split
      · exact inv_of_accounts_eq (check_account_lock_accounts s accNum now) hInv
      · exact inv_of_accounts_eq (check_account_lock_accounts s accNum now) hInv
  · intro s tok hInv
    unfold logout
    split
    · trivial
    · exact hInv
  · intro s tok amt note now tid hInv
    unfold withdraw
    split
    · exact hInv
    split
    · exact hInv
    split
    · exact hInv
    split
    · exact hInv
    split
    · exact hInv
    split
    · exact hInv
    rename_i h1 h2 sess hses account hacc h3 h4
    intro kv hkv
    rcases mem_updateD hkv with h | ⟨v, hv, rfl⟩
    · exact hInv _ h
    · rw [hacc] at hv
      injection hv with hv
      subst hv
      have hga := hInv _ (lookupD_mem hacc)
      exact ⟨sub_nonneg.mpr (not_lt.mp h4), not_lt.mp h3, hga.2.2⟩
  · intro s tok amt note now tid hInv
    unfold deposit
    split
    · exact hInv
    split
    · exact hInv
    split
    · exact hInv
    split
    · exact hInv
    rename_i h1 h2 oS sess hses oA account hacc
    intro kv hkv
    rcases mem_updateD hkv with h | ⟨v, hv, rfl⟩
    · exact hInv _ h
    · have hga := hInv _ (lookupD_mem hv)
      have hpos : (0 : ℚ) < amt := lt_of_not_le h1
      exact ⟨add_nonneg hga.1 hpos.le, hga.2.1, hga.2.2⟩
  · intro s tok to_acc amt note now tid hInv
    unfold transfer
    split
    · exact hInv
    split
    · exact hInv
    split
    · exact hInv
    split
    · exact hInv
    split
    · exact hInv
    split
    · exact hInv
    split
    · exact hInv
    rename_i h1 h2 oS sess hses hneq oT aTo hto oF sender hfrom hbal
    intro kv hkv
    rcases mem_updateD hkv with h | ⟨v, hv, rfl⟩
    · rcases mem_updateD h with h' | ⟨w, hw, rfl⟩
      · exact hInv _ h'
      · rw [hfrom] at hw
        injection hw with hw
        subst hw
        have hga := hInv _ (lookupD_mem hfrom)
        exact ⟨sub_nonneg.mpr (not_lt.mp hbal), hga.2.1, hga.2.2⟩
    · rw [lookupD_updateD_ne _ _ (Ne.symm hneq)] at hv
      rw [hto] at hv
      injection hv with hv
      subst hv
      have hga := hInv _ (lookupD_mem hto)
      have hpos : (0 : ℚ) < amt := lt_of_not_le h1
      exact ⟨add_nonneg hga.1 hpos.le, hga.2.1, hga.2.2⟩
  · intro s tok now tid hInv
    unfold fast_cash
    dsimp only
    split
    · exact hInv
    split
    · exact hInv
    split
    · exact hInv
    split
    · exact hInv
    rename_i sess hses account hacc h1 h2
    intro kv hkv
    rcases mem_updateD hkv with h | ⟨v, hv, rfl⟩
    · exact hInv _ h
    · rw [hacc] at hv
      injection hv with hv
      subst hv
      have hga := hInv _ (lookupD_mem hacc)
      exact ⟨sub_nonneg.mpr (not_lt.mp h1), not_lt.mp h2, hga.2.2⟩
  · intro s tok cp np hInv
    unfold change_pin
    split
    · exact hInv
    split
    · exact hInv
    split
    · exact hInv
    split
    · intro kv hkv
      rcases mem_updateD hkv with h | ⟨v, hv, rfl⟩
      · exact hInv _ h
      · have hga := hInv _ (lookupD_mem hv)
        exact ⟨hga.1, hga.2.1, hga.2.2⟩
    · exact hInv
  · intro s tok patch hInv
    unfold update_preferences
    split
    · exact hInv
    split
    · exact hInv
    intro kv hkv
    rcases mem_updateD hkv with h | ⟨v, hv, rfl⟩
    · exact hInv _ h
    · have hga := hInv _ (lookupD_mem hv)
      exact ⟨hga.1, hga.2.1, hga.2.2⟩

/-- State for the C4 witness: two well-formed accounts and a live session. -/
def sC4w : State :=
  { accounts := [("100001", accAlice), ("200002", accBob)],
    transactions := [], failed_attempts := [], locked_accounts := [],
    session_tokens :=
      [("TOKEN1", { account_number := "100001", created_at := 0, expires_at := 30 })] }

/-- C4 witness: the invariant holds after each of the nine operations run
on a concrete invariant-satisfying state. -/
theorem c4_invariants_preserved_witness :
    Inv (register sC4w "Carol" "1111" 25 "300003" "TX1" 0).2 ∧
    Inv (login sC4w "100001" "1234" 5 "TOKEN2").2 ∧
    FileInv (logout sC4w "TOKEN1").2 ∧
    Inv (withdraw sC4w "TOKEN1" 30 "" 5 "TX1").2 ∧
    Inv (deposit sC4w "TOKEN1" 30 "" 5 "TX1").2 ∧
    Inv (transfer sC4w "TOKEN1" "200002" 50 "" 5 "TX1").2 ∧
    Inv (fast_cash sC4w "TOKEN1" 5 "TX1").2 ∧
    Inv (change_pin sC4w "TOKEN1" "1234" "5678").2 ∧
    Inv (update_preferences sC4w "TOKEN1" (fcPatch 200)).2 := by
  have hInv : Inv sC4w := by
    unfold Inv GoodAccount
    decide
  exact ⟨c4_invariants_preserved.1 sC4w "Carol" "1111" 25 "300003" "TX1" 0 hInv,
    c4_invariants_preserved.2.1 sC4w "100001" "1234" 5 "TOKEN2" hInv,
    c4_invariants_preserved.2.2.1 sC4w "TOKEN1" hInv,
    c4_invariants_preserved.2.2.2.1 sC4w "TOKEN1" 30 "" 5 "TX1" hInv,
    c4_invariants_preserved.2.2.2.2.1 sC4w "TOKEN1" 30 "" 5 "TX1" hInv,
    c4_invariants_preserved.2.2.2.2.2.1 sC4w "TOKEN1" "200002" 50 "" 5 "TX1" hInv,
    c4_invariants_preserved.2.2.2.2.2.2.1 sC4w "TOKEN1" 5 "TX1" hInv,
    c4_invariants_preserved.2.2.2.2.2.2.2.1 sC4w "TOKEN1" "1234" "5678" hInv,
    c4_invariants_preserved.2.2.2.2.2.2.2.2 sC4w "TOKEN1" (fcPatch 200) hInv⟩

end ATM
